import Mathlib

/- Verification of the retryablehttp client library: a shallow embedding of the
   request model, the drain utility, the Alt-Svc protocol-hint helpers, the
   ztls-fallback TLS dial step, client construction, and the impersonation
   transport, together with spec-level models of the default retry and backoff
   policies (whose defining source file is absent from this snapshot; only their
   callers are present). -/

namespace Retryablehttp

/-! ## URL model (external collaborator)

`urlutil.URL` (github.com/projectdiscovery/utils/url) is an external dependency,
out of scope per the spec (section 1: generic URL parsing utilities are treated
as black boxes). It is modelled at its interface: a parsed base plus a parameter
list, with `Update` re-deriving the serialized string form from them and `Clone`
returning an equal copy. -/

/-- Modelled from the spec: the external URL value holds parsed components and a
serialized raw form re-derivable from them. -/
structure URL where
  base : String
  params : List (String × String)
  raw : String
deriving DecidableEq

/-- Modelled from the spec: serialization of the parameter list used by `Update`. -/
def serializeParams : List (String × String) → String
  | [] => ""
  | (k, v) :: rest => k ++ "=" ++ v ++ serializeParams rest

/-- Modelled from the spec: `urlutil.URL.Update` re-derives the raw string form
from the (unchanged) parsed components. -/
def URL.Update (u : URL) : URL :=
  { u with raw := u.base ++ serializeParams u.params }

/-- Modelled from the spec: `urlutil.URL.Clone` duplicates the URL value. -/
def URL.CloneURL (u : URL) : URL := u

/-! ## Request, Metrics, Auth (src/request.go) -/

/-- Metrics contains the metrics about each request (src/request.go). -/
structure Metrics where
  Failures : Nat := 0
  Retries : Nat := 0
  DrainErrors : Nat := 0
deriving DecidableEq

/-- AuthType (src/request.go). -/
inductive AuthType where
  | digestAuth
deriving DecidableEq

/-- Auth specific information (src/request.go). The Go field `Type` is rendered
here as `authType` because `Type` is reserved in Lean. -/
structure Auth where
  authType : AuthType
  Username : String
  Password : String
deriving DecidableEq

/-- Request wraps the metadata needed to create HTTP requests (src/request.go).
The embedded `*http.Request` contributes the method and context here; the
embedded `*urlutil.URL` is the `url` field. -/
structure Request where
  method : String
  url : URL
  ctx : Nat
  Metrics : Metrics
  Auth : Option Auth
deriving DecidableEq

/-- hasAuth checks if request has any username/password (src/request.go). -/
def Request.hasAuth (request : Request) : Bool :=
  request.Auth.isSome

/-- Clone of a request (src/request.go, `func (r *Request) Clone`). The Go
method mutates the receiver via `r.Update()` (re-serializing its URL) and
returns a fresh request; the embedding returns the pair
(clone, receiver after the call). -/
def Request.Clone (r : Request) (ctx : Nat) : Request × Request :=
  -- r.Update()
  let r1 : Request := { r with url := r.url.Update }
  -- ux := r.URL.Clone()
  let ux := r1.url.CloneURL
  -- req := r.Request.Clone(ctx); req.URL = ux.URL : method copied, context set
  -- ux.Update()
  let ux2 := ux.Update
  -- var auth *Auth; if r.hasAuth() { auth = &Auth{copied fields} }
  let auth : Option Retryablehttp.Auth :=
    match r1.Auth with
    | some a => some { authType := a.authType, Username := a.Username, Password := a.Password }
    | none => none
  (⟨r1.method, ux2, ctx, {}, auth⟩, r1)

/-- C3: for every Request r and context ctx, r.Clone(ctx) returns a new Request
whose method and URL equal r's (the clone holds the re-serialized URL, equal to
the one left on r by the call, with the same parsed components as before), whose
Auth is an equal copy of r's Auth (none when r has none), and whose Metrics
counters are all zero regardless of r's metrics; the original request r's
Metrics are left unchanged by the clone operation. -/
theorem Clone_duplicates_and_resets_metrics (r : Request) (ctx : Nat) :
    ((r.Clone ctx).1.method = r.method) ∧
    ((r.Clone ctx).1.url = (r.Clone ctx).2.url) ∧
    ((r.Clone ctx).1.url.base = r.url.base) ∧
    ((r.Clone ctx).1.url.params = r.url.params) ∧
    ((r.Clone ctx).1.Auth = r.Auth) ∧
    ((r.Clone ctx).1.Metrics = ⟨0, 0, 0⟩) ∧
    ((r.Clone ctx).2.Metrics = r.Metrics) := by
  rcases r with ⟨m, ⟨b, ps, raw⟩, c, mets, auth⟩
  refine ⟨rfl, rfl, rfl, rfl, ?_, rfl, rfl⟩
  cases auth with
  | none => rfl
  | some a => rfl

/-! ## Default retry policy (spec model)

The file defining `DefaultRetryPolicy` and `DefaultBackoff` is not part of this
source snapshot; only their call sites (src/client.go) are. Both are therefore
modelled from the spec (sections 4.3 and 4.4). -/

/-- State of the caller's context as the retry policy observes it. -/
inductive CtxState where
  | active
  | canceled
  | deadlineExceeded
deriving DecidableEq

/-- A transport-level error as classified by the retry policy: the spec only
distinguishes recoverable from unrecoverable transport errors. -/
structure TransportErr where
  unrecoverable : Bool
deriving DecidableEq

/-- Response as seen by the retry policy: only the status code matters. -/
structure PolicyResponse where
  StatusCode : Nat
deriving DecidableEq

/-- The policy error returned alongside the retry decision. -/
inductive PolicyErr where
  | ctxError (s : CtxState)
deriving DecidableEq

/-- Modelled from the spec: `DefaultRetryPolicy` (section 4.4; its defining file
is missing from src/, only its caller in src/client.go is present). Decision
rules in order: (1) canceled or deadline-exceeded context means no retry and the
cancellation is surfaced; (2) a transport error is retried unless classified
unrecoverable; (3) a response retries on 429 and on 5xx except 501, and is
otherwise success; (4) any other case does not retry. -/
def DefaultRetryPolicy (ctx : CtxState) (resp : Option PolicyResponse)
    (err : Option TransportErr) : Bool × Option PolicyErr :=
  match ctx with
  | .canceled => (false, some (.ctxError .canceled))
  | .deadlineExceeded => (false, some (.ctxError .deadlineExceeded))
  | .active =>
    match err with
    | some e => (!e.unrecoverable, none)
    | none =>
      match resp with
      | some r =>
        ((r.StatusCode == 429 ||
          (decide (500 ≤ r.StatusCode) && decide (r.StatusCode ≤ 599) &&
            r.StatusCode != 501)), none)
      | none => (false, none)

/-- C1: the default retry policy decides as the spec orders: a canceled or
deadline-exceeded context yields shouldRetry = false and surfaces the
cancellation; an obtained response (no transport error) yields
shouldRetry = true exactly when the status code is 429 or lies in 500..599
excluding 501, and shouldRetry = false (success) otherwise. -/
theorem DefaultRetryPolicy_decides_as_specified (resp : Option PolicyResponse)
    (err : Option TransportErr) (r : PolicyResponse) :
    (DefaultRetryPolicy .canceled resp err = (false, some (.ctxError .canceled))) ∧
    (DefaultRetryPolicy .deadlineExceeded resp err
      = (false, some (.ctxError .deadlineExceeded))) ∧
    ((DefaultRetryPolicy .active (some r) none).2 = none) ∧
    ((DefaultRetryPolicy .active (some r) none).1 = true ↔
      (r.StatusCode = 429 ∨
        (500 ≤ r.StatusCode ∧ r.StatusCode ≤ 599 ∧ r.StatusCode ≠ 501))) := by
  refine ⟨rfl, rfl, rfl, ?_⟩
  simp only [DefaultRetryPolicy, Bool.or_eq_true, Bool.and_eq_true,
    beq_iff_eq, bne_iff_ne, decide_eq_true_eq]
  tauto

/-! ## Default backoff policy (spec model) -/

/-- Response as seen by the backoff policy: only a parsed Retry-After delay
matters; `none` covers both an absent header and an invalid value. Durations
are naturals (nanoseconds). -/
structure BackoffResponse where
  RetryAfter : Option Nat
deriving DecidableEq

/-- The Retry-After delay carried by the last response, if any. -/
def retryAfterOf : Option BackoffResponse → Option Nat
  | none => none
  | some r => r.RetryAfter

/-- Modelled from the spec: `DefaultBackoff` (section 4.3; its defining file is
missing from src/, only its caller in src/client.go is present). Exponential
growth seeded at `minWait`, doubling per attempt (attempt numbers are 1-indexed
relative to the retry), capped at `maxWait`; a valid Retry-After delay on the
last response takes precedence, still bounded by `maxWait`. -/
def DefaultBackoff (minWait maxWait : Nat) (attemptNum : Nat)
    (lastResponse : Option BackoffResponse) : Nat :=
  match retryAfterOf lastResponse with
  | some d => min d maxWait
  | none => min (minWait * 2 ^ (attemptNum - 1)) maxWait

/-- C2: for every minWait ≤ maxWait, every last response, and all 1-indexed
attempt numbers, the default backoff is monotonically non-decreasing in the
attempt number, never exceeds maxWait, equals at least minWait at attempt 1 when
no Retry-After delay is present, computes minWait doubled per attempt capped at
maxWait, and gives precedence to a valid Retry-After delay (still bounded by
maxWait); as a plain function of its four arguments it is pure and
deterministic. -/
theorem DefaultBackoff_monotone_bounded (minWait maxWait : Nat)
    (hmin : minWait ≤ maxWait) (n m : Nat) (h1 : 1 ≤ n) (hnm : n ≤ m)
    (lastResponse : Option BackoffResponse) :
    (DefaultBackoff minWait maxWait n lastResponse
      ≤ DefaultBackoff minWait maxWait m lastResponse) ∧
    (DefaultBackoff minWait maxWait n lastResponse ≤ maxWait) ∧
    (retryAfterOf lastResponse = none →
      minWait ≤ DefaultBackoff minWait maxWait 1 lastResponse) ∧
    (retryAfterOf lastResponse = none →
      DefaultBackoff minWait maxWait n lastResponse
        = min (minWait * 2 ^ (n - 1)) maxWait) ∧
    (∀ d, retryAfterOf lastResponse = some d →
      DefaultBackoff minWait maxWait n lastResponse = min d maxWait) := by
  unfold DefaultBackoff
  cases hra : retryAfterOf lastResponse with
  | some d =>
    refine ⟨le_refl _, min_le_right _ _, ?_, ?_, ?_⟩ <;> simp
  | none =>
    refine ⟨?_, min_le_right _ _, ?_, ?_, ?_⟩
    · exact min_le_min
        (Nat.mul_le_mul_left _ (Nat.pow_le_pow_right (by omega) (by omega)))
        (le_refl _)
    · intro _
      simp [Nat.min_eq_left hmin]
    · intro _; rfl
    · intro d hd; simp at hd

/-- Witness for C2 at minWait one second, maxWait thirty seconds, attempts 1 and
2, no last response. -/
theorem DefaultBackoff_monotone_bounded_witness :
    (DefaultBackoff 1000000000 30000000000 1 none
      ≤ DefaultBackoff 1000000000 30000000000 2 none) ∧
    (DefaultBackoff 1000000000 30000000000 1 none ≤ 30000000000) ∧
    (retryAfterOf none = none →
      1000000000 ≤ DefaultBackoff 1000000000 30000000000 1 none) ∧
    (retryAfterOf none = none →
      DefaultBackoff 1000000000 30000000000 1 none
        = min (1000000000 * 2 ^ (1 - 1)) 30000000000) ∧
    (∀ d, retryAfterOf none = some d →
      DefaultBackoff 1000000000 30000000000 1 none = min d 30000000000) :=
  DefaultBackoff_monotone_bounded 1000000000 30000000000 (by norm_num) 1 2
    (le_refl 1) (by norm_num) none

/-! ## Drain utility (src/util.go, `Discard`)

`Discard` runs `io.Copy(ioutil.Discard, io.LimitReader(resp.Body, RespReadLimit))`
and then closes the body. The body is modelled as the byte stream it yields
followed by either a clean end of stream or a read error; `readLimited` is the
byte-for-byte semantics of copying from the limited reader: `io.LimitReader`
reports end of stream once the cap is consumed (without touching the underlying
reader again), and `io.Copy` treats end of stream as success, so an underlying
read error surfaces only if it is reached before the cap. -/

/-- A response body stream: the bytes it yields, then end of stream
(`failAfter = false`) or a read error (`failAfter = true`). -/
structure BodyStream where
  bytes : List Nat
  failAfter : Bool
deriving DecidableEq

/-- Response as the drain utility sees it: a body and whether it is closed. -/
structure DrainResponse where
  Body : BodyStream
  closed : Bool
deriving DecidableEq

/-- Copy-and-discard through `io.LimitReader`: returns the number of bytes
consumed and whether the copy returned an error. -/
def readLimited : Nat → List Nat → Bool → Nat × Bool
  | 0, _, _ => (0, false)
  | _ + 1, [], failAfter => (0, failAfter)
  | limit + 1, _ :: rest, failAfter =>
    let r := readLimited limit rest failAfter
    (r.1 + 1, r.2)

/-- Discard is an helper function that discards the response body and closes
the underlying connection (src/util.go). The Go function mutates the request's
metrics and the response; the embedding returns both. -/
def Discard (req : Request) (resp : DrainResponse) (RespReadLimit : Nat) :
    Request × DrainResponse :=
  let r := readLimited RespReadLimit resp.Body.bytes resp.Body.failAfter
  let req1 :=
    if r.2 then
      { req with Metrics := { req.Metrics with DrainErrors := req.Metrics.DrainErrors + 1 } }
    else req
  (req1, { resp with closed := true })

/-- The copy through the limited reader consumes `min length cap` bytes and
errors exactly when the stream's own read error lies before the cap. -/
theorem readLimited_eq (limit : Nat) (bs : List Nat) (failAfter : Bool) :
    readLimited limit bs failAfter
      = (min bs.length limit, decide (bs.length < limit) && failAfter) := by
  induction limit generalizing bs with
  | zero => simp [readLimited]
  | succ n ih =>
    cases bs with
    | nil => simp [readLimited]
    | cons b rest =>
      simp [readLimited, ih, Nat.succ_min_succ, Nat.succ_lt_succ_iff]

/-- Counterexample to C4 as stated: with a cap of 2 and a healthy 3-byte body,
the bounded read stops at the cap while more data remains, yet the drain-error
counter is not incremented — reaching the cap is not an error for the code. -/
theorem Discard_cap_hit_is_not_an_error :
    (Discard ⟨"GET", ⟨"", [], ""⟩, 0, ⟨0, 0, 0⟩, none⟩
        ⟨⟨[7, 7, 7], false⟩, false⟩ 2).1.Metrics.DrainErrors = 0 ∧
    2 < ([7, 7, 7] : List Nat).length := by
  constructor
  · rfl
  · decide

/-- C4 (amended): the drain utility reads at most the cap bytes and closes the
body unconditionally; it increments the request's DrainErrors counter by
exactly one precisely when the underlying body read errors before the cap is
consumed — reaching the cap itself with more data remaining is a clean end of
the bounded read, not an error — and the other counters are untouched; no error
is propagated to the caller (the operation only updates metrics and closes). -/
theorem Discard_bounded_close_and_error_count (req : Request)
    (resp : DrainResponse) (RespReadLimit : Nat) :
    ((readLimited RespReadLimit resp.Body.bytes resp.Body.failAfter).1
      ≤ RespReadLimit) ∧
    ((Discard req resp RespReadLimit).2.closed = true) ∧
    ((Discard req resp RespReadLimit).1.Metrics.DrainErrors =
      req.Metrics.DrainErrors +
        (if resp.Body.bytes.length < RespReadLimit ∧ resp.Body.failAfter = true
          then 1 else 0)) ∧
    ((Discard req resp RespReadLimit).1.Metrics.Failures
      = req.Metrics.Failures) ∧
    ((Discard req resp RespReadLimit).1.Metrics.Retries
      = req.Metrics.Retries) := by
  have hr := readLimited_eq RespReadLimit resp.Body.bytes resp.Body.failAfter
  refine ⟨by rw [hr]; exact min_le_right _ _, rfl, ?_, ?_, ?_⟩ <;>
    · simp only [Discard, hr]
      rcases h1 : resp.Body.failAfter with _ | _ <;>
        rcases h2 : decide (resp.Body.bytes.length < RespReadLimit) with _ | _ <;>
          simp_all

/-! ## Protocol hint utilities (src/util.go, `HasHTTPX` / `HasHTTP2` / `HasHTTP3`)

Strings are modelled as lists of characters. The helpers from the external
`stringsutil` package (HasPrefixI, After, Before) are modelled at their
interface: case-insensitive head test, the part after the first occurrence of a
token, and the part before the first occurrence of a token (each returning the
input unchanged when the token does not occur). -/

/-- Character strings for the header utilities. -/
abbrev Str := List Char

/-- The double-quote character (written via its code point to keep the source
free of quote literals). -/
def quoteChar : Char := Char.ofNat 34

/-- Lower-casing of a character string. -/
def lowerStr (s : Str) : Str := s.map Char.toLower

/-- Head test: `leadsWith pat s` holds when `s` starts with `pat`. -/
def leadsWith : Str → Str → Bool
  | [], _ => true
  | _ :: _, [] => false
  | a :: as, b :: bs => a == b && leadsWith as bs

/-- Modelled from the spec: `stringsutil.HasPrefixI`, the case-insensitive head
test used on the Alt-Svc header value. -/
def HasPrefixI (s pat : Str) : Bool := leadsWith (lowerStr pat) (lowerStr s)

/-- Split at the first occurrence of `sep`: `some (before, after)` when `sep`
occurs, `none` otherwise. -/
def splitOnFirst (sep : Str) : Str → Option (Str × Str)
  | [] => if sep.isEmpty then some ([], []) else none
  | c :: cs =>
    if leadsWith sep (c :: cs) then some ([], (c :: cs).drop sep.length)
    else (splitOnFirst sep cs).map fun p => (c :: p.1, p.2)

/-- Modelled from the spec: `stringsutil.After s sep`, the part of `s` after the
first occurrence of `sep` (all of `s` when `sep` does not occur). -/
def After (s sep : Str) : Str :=
  match splitOnFirst sep s with
  | some p => p.2
  | none => s

/-- Modelled from the spec: `stringsutil.Before s sep`, the part of `s` before
the first occurrence of `sep` (all of `s` when `sep` does not occur). -/
def Before (s sep : Str) : Str :=
  match splitOnFirst sep s with
  | some p => p.1
  | none => s

/-- Response as the protocol-hint utilities see it: just headers. -/
structure AltSvcResponse where
  Header : List (Str × Str)
deriving DecidableEq

/-- `resp.Header.Get key`: the first value stored under the key, empty when the
key is absent. -/
def headerGet (hs : List (Str × Str)) (key : Str) : Str :=
  match hs.find? fun p => p.1 == key with
  | some p => p.2
  | none => []

/-- The Alt-Svc header key. -/
def altSvcKey : Str := ['A', 'l', 't', '-', 'S', 'v', 'c']

/-- The error message for a nil response. -/
def nilRespErr : Str := ("response is nil").toList

/-- HasHTTPX (src/util.go): inspects the Alt-Svc header of a response for a
`protocol="host:port"` advertisement. A nil response is an error; otherwise the
hostPort is cut out of the header value between `protocol="` and the closing
quote. -/
def HasHTTPX (resp : Option AltSvcResponse) (protocol : Str) :
    Bool × Str × Option Str :=
  match resp with
  | none => (false, [], some nilRespErr)
  | some r =>
    let altsvcHeader := headerGet r.Header altSvcKey
    if HasPrefixI altsvcHeader (protocol ++ ['=']) then
      (true, Before (After altsvcHeader (protocol ++ ['=', quoteChar])) [quoteChar],
        none)
    else (false, [], none)

/-- HasHTTP2 (src/util.go). -/
def HasHTTP2 (resp : Option AltSvcResponse) : Bool × Str × Option Str :=
  HasHTTPX resp ['h', '2']

/-- HasHTTP3 (src/util.go). -/
def HasHTTP3 (resp : Option AltSvcResponse) : Bool × Str × Option Str :=
  HasHTTPX resp ['h', '3']

/-- A string starts with itself followed by anything. -/
theorem leadsWith_append (xs ys : Str) : leadsWith xs (xs ++ ys) = true := by
  induction xs with
  | nil => rfl
  | cons a as ih => simp [leadsWith, ih]

/-- Splitting on a separator that sits at the head cuts exactly there. -/
theorem splitOnFirst_head (sep rest : Str) (h : sep ≠ []) :
    splitOnFirst sep (sep ++ rest) = some ([], rest) := by
  cases sep with
  | nil => exact absurd rfl h
  | cons a as =>
    rw [List.cons_append, splitOnFirst]
    rw [← List.cons_append, leadsWith_append]
    simp [List.drop_left]

/-- Splitting on the quote character after a quote-free run cuts exactly at the
first quote. -/
theorem splitOnFirst_quote (hp tail : Str) (hq : quoteChar ∉ hp) :
    splitOnFirst [quoteChar] (hp ++ [quoteChar] ++ tail) = some (hp, tail) := by
  induction hp with
  | nil =>
    rw [List.nil_append, List.cons_append, splitOnFirst]
    simp [leadsWith]
  | cons c cs ih =>
    have hcq : quoteChar ≠ c := fun h => hq (h ▸ List.mem_cons_self c cs)
    have hcs : quoteChar ∉ cs := fun h => hq (List.mem_cons_of_mem c h)
    have hstep : c :: cs ++ [quoteChar] ++ tail
        = c :: (cs ++ [quoteChar] ++ tail) := by simp
    rw [hstep, splitOnFirst]
    have hlw : leadsWith [quoteChar] (c :: (cs ++ [quoteChar] ++ tail)) = false := by
      simp [leadsWith, hcq]
    simp only [hlw, Bool.false_eq_true, if_false]
    rw [ih hcs]
    rfl

/-- C5: HasHTTP2/HasHTTP3 (via HasHTTPX) return (true, hostPort, no error) with
hostPort cut from the `protocol="host:port"` attribute when the Alt-Svc header
advertises the protocol; absence of the header or a non-matching protocol token
yields (false, empty, no error); a nil response yields (false, empty) together
with an error. -/
theorem HasHTTPX_altsvc_hint (protocol hp : Str) (hq : quoteChar ∉ hp) :
    (HasHTTPX
        (some ⟨[(altSvcKey, protocol ++ ['='] ++ [quoteChar] ++ hp ++ [quoteChar])]⟩)
        protocol
      = (true, hp, none)) ∧
    (HasHTTPX (some ⟨[]⟩) protocol = (false, [], none)) ∧
    (∀ hdr, HasPrefixI hdr (protocol ++ ['=']) = false →
      HasHTTPX (some ⟨[(altSvcKey, hdr)]⟩) protocol = (false, [], none)) ∧
    (HasHTTPX none protocol = (false, [], some nilRespErr)) ∧
    (HasHTTP2 = fun resp => HasHTTPX resp ['h', '2']) ∧
    (HasHTTP3 = fun resp => HasHTTPX resp ['h', '3']) := by
  have hempty : ∀ p : Str, HasPrefixI [] (p ++ ['=']) = false := by
    intro p
    unfold HasPrefixI lowerStr
    simp only [List.map_append, List.map_nil]
    cases h : List.map Char.toLower p ++ List.map Char.toLower ['='] with
    | nil => exact absurd h (by simp)
    | cons a as => rfl
  refine ⟨?_, ?_, ?_, rfl, rfl, rfl⟩
  · have hdrval : protocol ++ ['='] ++ [quoteChar] ++ hp ++ [quoteChar]
        = (protocol ++ ['=']) ++ ([quoteChar] ++ hp ++ [quoteChar]) := by
      simp [List.append_assoc]
    have hget : headerGet
        [(altSvcKey, protocol ++ ['='] ++ [quoteChar] ++ hp ++ [quoteChar])]
        altSvcKey
        = protocol ++ ['='] ++ [quoteChar] ++ hp ++ [quoteChar] := by
      simp [headerGet, List.find?]
    have hpref : HasPrefixI
        (protocol ++ ['='] ++ [quoteChar] ++ hp ++ [quoteChar])
        (protocol ++ ['=']) = true := by
      rw [hdrval]
      unfold HasPrefixI lowerStr
      simp only [List.map_append]
      exact leadsWith_append _ _
    have hdrval2 : protocol ++ ['='] ++ [quoteChar] ++ hp ++ [quoteChar]
        = (protocol ++ ['=', quoteChar]) ++ (hp ++ [quoteChar] ++ []) := by
      simp [List.append_assoc]
    have hafter : After
        (protocol ++ ['='] ++ [quoteChar] ++ hp ++ [quoteChar])
        (protocol ++ ['=', quoteChar]) = hp ++ [quoteChar] ++ [] := by
      unfold After
      rw [hdrval2, splitOnFirst_head _ _ (by simp)]
    have hbefore : Before (hp ++ [quoteChar] ++ []) [quoteChar] = hp := by
      unfold Before
      rw [splitOnFirst_quote hp [] hq]
    simp only [HasHTTPX, hget, hpref, if_true, hafter, hbefore]
  · simp only [HasHTTPX, headerGet, List.find?, hempty protocol]
    rfl
  · intro hdr hnp
    have hget : headerGet [(altSvcKey, hdr)] altSvcKey = hdr := by
      simp [headerGet, List.find?]
    simp only [HasHTTPX, hget, hnp]
    rfl

/-- Witness for C5 at protocol h3 and the spec's example host:port
edge.example:443 (built character by character to avoid quote literals). -/
theorem HasHTTPX_altsvc_hint_witness :
    (HasHTTPX
        (some ⟨[(altSvcKey,
          ("h3").toList ++ ['='] ++ [quoteChar]
            ++ ("edge.example:443").toList ++ [quoteChar])]⟩)
        (("h3").toList)
      = (true, ("edge.example:443").toList, none)) ∧
    (HasHTTPX (some ⟨[]⟩) (("h3").toList) = (false, [], none)) ∧
    (∀ hdr, HasPrefixI hdr (("h3").toList ++ ['=']) = false →
      HasHTTPX (some ⟨[(altSvcKey, hdr)]⟩) (("h3").toList) = (false, [], none)) ∧
    (HasHTTPX none (("h3").toList) = (false, [], some nilRespErr)) ∧
    (HasHTTP2 = fun resp => HasHTTPX resp ['h', '2']) ∧
    (HasHTTP3 = fun resp => HasHTTPX resp ['h', '3']) :=
  HasHTTPX_altsvc_hint (("h3").toList) (("edge.example:443").toList) (by decide)

/-! ## ztls fallback dial step (src/http.go)

`GetZtlsFallbackDialTLSContext` returns a dial closure. The closure's decision
logic is embedded as a function of the primary handshake outcome, the global
`DisableZTLSFallback` switch, and the (external) ztls dial as a function of the
config it is handed. Connections are abstract identifiers; the only property of
a TLS error the code inspects is `errors.Is(err, os.ErrDeadlineExceeded)`. -/

/-- A TLS dial error, carrying whether it is a deadline-exceeded error. -/
structure TLSError where
  deadlineExceeded : Bool
deriving DecidableEq

/-- The (conn, err) pair a TLS dial returns; connections are abstract ids. -/
abbrev DialOutcome := Option Nat × Option TLSError

/-- Cipher suite sets the fallback config can carry. -/
inductive CipherSet where
  | chrome
  | stdDefault
deriving DecidableEq

/-- The ztls config built at the fallback call site. -/
structure ZtlsConfig where
  InsecureSkipVerify : Bool
  CipherSuites : CipherSet
deriving DecidableEq

/-- GetZtlsFallbackDialTLSContext (src/http.go): the dial step first takes the
standard handshake outcome; on no error, or with the global switch on, it
returns that outcome; a deadline-exceeded error is also returned as is;
otherwise it falls back to ztls with InsecureSkipVerify and the Chrome cipher
suites. The second component records whether the fallback was attempted. -/
def GetZtlsFallbackDialTLSContext (DisableZTLSFallback : Bool)
    (primary : DialOutcome) (ztlsDial : ZtlsConfig → DialOutcome) :
    DialOutcome × Bool :=
  match primary.2 with
  | none => (primary, false)
  | some err =>
    if DisableZTLSFallback then (primary, false)
    else if err.deadlineExceeded then (primary, false)
    else (ztlsDial { InsecureSkipVerify := true, CipherSuites := .chrome }, true)

/-- init (src/http.go): `DisableZTLSFallback` is set at initialization from the
DISABLE_ZTLS_FALLBACK environment variable via `strings.EqualFold(value, "true")`
(modelled as case-folded equality with the word true). -/
def initDisableZTLSFallback (env : Str) : Bool :=
  lowerStr env == ("true").toList

/-- C6: the standard TLS handshake's outcome is returned when it succeeds; on
failure the ztls fallback (with the fixed Chrome cipher suite set) is attempted
if and only if the error is not deadline-exceeded and the global
fallback-disable switch is off; whenever the fallback is not attempted the
primary outcome — connection and error — is returned unchanged; the switch is
derived at initialization from the DISABLE_ZTLS_FALLBACK environment variable by
case-insensitive comparison with the word true. -/
theorem ztls_fallback_decision (DisableZTLSFallback : Bool)
    (primary : DialOutcome) (ztlsDial : ZtlsConfig → DialOutcome) (env : Str) :
    ((GetZtlsFallbackDialTLSContext DisableZTLSFallback primary ztlsDial).2 = true ↔
      ((∃ e, primary.2 = some e ∧ e.deadlineExceeded = false) ∧
        DisableZTLSFallback = false)) ∧
    ((GetZtlsFallbackDialTLSContext DisableZTLSFallback primary ztlsDial).2 = false →
      (GetZtlsFallbackDialTLSContext DisableZTLSFallback primary ztlsDial).1
        = primary) ∧
    ((GetZtlsFallbackDialTLSContext DisableZTLSFallback primary ztlsDial).2 = true →
      (GetZtlsFallbackDialTLSContext DisableZTLSFallback primary ztlsDial).1
        = ztlsDial { InsecureSkipVerify := true, CipherSuites := .chrome }) ∧
    (initDisableZTLSFallback env = (lowerStr env == ("true").toList)) ∧
    (initDisableZTLSFallback (("TRUE").toList) = true) ∧
    (initDisableZTLSFallback [] = false) := by
  refine ⟨?_, ?_, ?_, rfl, by decide, by decide⟩ <;>
    · unfold GetZtlsFallbackDialTLSContext
      rcases primary with ⟨conn, _ | ⟨_ | _⟩⟩ <;>
        rcases DisableZTLSFallback with _ | _ <;> simp

/-! ## Client construction (src/client.go, src/http.go)

The transports and clients of src/http.go carry many knobs; only the fields the
claims turn on are modelled (keep-alive switch and the connection limits read by
`setKillIdleConnections`). The per-client `Timeout` mutation of NewClient (and
its float-based 30 percent adjustment) touches no modelled field and no claim,
and is omitted. The external `http2.ConfigureTransport` call is an input
(`h2ConfigOk`): NewClient returns nil when it errors. Go durations are modelled
as integer nanoseconds. -/

/-- The fields of `*http.Transport` the embedded code reads or sets. -/
structure HTTPTransport where
  DisableKeepAlives : Bool
  MaxIdleConns : Int
  MaxIdleConnsPerHost : Int
  MaxConnsPerHost : Int
deriving DecidableEq

/-- The transport slot of an `http.Client`: a plain `*http.Transport`, the
impersonation `bypassJA3Transport` wrapper, or any other custom RoundTripper. -/
inductive RoundTripper where
  | transport (t : HTTPTransport)
  | bypassJA3 (tr1 : HTTPTransport)
  | custom (id : Nat)
deriving DecidableEq

/-- Whether the unchecked type assertion `Transport.(*http.Transport)` would
succeed on this RoundTripper. -/
def RoundTripper.isPlainTransport : RoundTripper → Bool
  | .transport _ => true
  | _ => false

/-- An `http.Client` as the embedded code uses it. -/
structure HttpClient where
  Transport : RoundTripper
deriving DecidableEq

/-- DefaultHostSprayingTransport (src/http.go): the pooled defaults with
keep-alives disabled and MaxIdleConnsPerHost set to -1. -/
def DefaultHostSprayingTransport : HTTPTransport :=
  { DisableKeepAlives := true, MaxIdleConns := 100,
    MaxIdleConnsPerHost := -1, MaxConnsPerHost := 0 }

/-- DefaultReusePooledTransport (src/http.go): keep-alives on, 100 idle
connections overall and per host, MaxConnsPerHost left at its zero value. -/
def DefaultReusePooledTransport : HTTPTransport :=
  { DisableKeepAlives := false, MaxIdleConns := 100,
    MaxIdleConnsPerHost := 100, MaxConnsPerHost := 0 }

/-- DefaultClient (src/http.go). -/
def DefaultClient : HttpClient := ⟨.transport DefaultHostSprayingTransport⟩

/-- DefaultPooledClient (src/http.go). -/
def DefaultPooledClient : HttpClient := ⟨.transport DefaultReusePooledTransport⟩

/-- Options (src/client.go). Durations in nanoseconds; custom CheckRetry /
Backoff / hook slots carry no modelled behavior and are omitted. -/
structure Options where
  RetryWaitMin : Int := 0
  RetryWaitMax : Int := 0
  Timeout : Int := 0
  RetryMax : Int := 0
  RespReadLimit : Int := 0
  Verbose : Bool := false
  KillIdleConn : Bool := false
  NoAdjustTimeout : Bool := false
  HttpClient : Option HttpClient := none
  ImpersonateChrome : Bool := false
deriving DecidableEq

/-- One second in nanoseconds (Go `time.Second`). -/
def second : Int := 1000000000

/-- DefaultOptionsSpraying (src/client.go). -/
def DefaultOptionsSpraying : Options :=
  { RetryWaitMin := 1 * second, RetryWaitMax := 30 * second,
    Timeout := 30 * second, RetryMax := 5, RespReadLimit := 4096,
    KillIdleConn := true, NoAdjustTimeout := true }

/-- DefaultOptionsSingle (src/client.go). -/
def DefaultOptionsSingle : Options :=
  { RetryWaitMin := 1 * second, RetryWaitMax := 30 * second,
    Timeout := 30 * second, RetryMax := 5, RespReadLimit := 4096,
    KillIdleConn := false, NoAdjustTimeout := true }

/-- The Client value NewClient builds (src/client.go): the primary executor and
the options snapshot (the policy and hook slots carry no modelled state). -/
structure GoClient where
  HTTPClient : HttpClient
  options : Options
deriving DecidableEq

/-- setKillIdleConnections (src/client.go): the outer guard
`c.HTTPClient != nil || !c.options.KillIdleConn` is satisfied for every client
built by NewClient (whose HTTPClient is never nil, rendering the first disjunct
true); when the transport is a plain `*http.Transport`, the flag is overwritten
with `DisableKeepAlives || MaxConnsPerHost < 0`. -/
def setKillIdleConnections (c : GoClient) : GoClient :=
  if true || !c.options.KillIdleConn then
    match c.HTTPClient.Transport with
    | .transport b =>
      { c with options :=
          { c.options with
            KillIdleConn := b.DisableKeepAlives || decide (b.MaxConnsPerHost < 0) } }
    | _ => c
  else c

/-- Outcome of NewClient: a client, the nil return taken when
`http2.ConfigureTransport` errors, or a Go panic. -/
inductive NewClientResult where
  | ok (c : GoClient)
  | nilClient
  | panicked
deriving DecidableEq

/-- The options snapshot of a successfully built client, if any. -/
def NewClientResult.resolvedOptions : NewClientResult → Option Options
  | .ok c => some c.options
  | _ => none

/-- The `httpclient` local of NewClient (src/client.go): the supplied custom
client, or the host-spraying default when KillIdleConn is set, or the pooled
default. -/
def clientChosen (options : Options) : HttpClient :=
  match options.HttpClient with
  | some hc => hc
  | none => if options.KillIdleConn then DefaultClient else DefaultPooledClient

/-- NewClient (src/client.go): picks the supplied custom client, or the
host-spraying default when KillIdleConn is set, or the pooled default; performs
the unchecked `Transport.(*http.Transport)` assertion (a Go panic when it
fails); builds the http2-capable secondary client (returning nil when the
external `http2.ConfigureTransport` call, `h2ConfigOk`, errors); swaps in the
`bypassJA3Transport` wrapper when impersonation is requested; and finally runs
`setKillIdleConnections`. -/
def NewClient (options : Options) (h2ConfigOk : Bool) : NewClientResult :=
  let httpclient : HttpClient := clientChosen options
  match httpclient.Transport with
  | .transport httptransport =>
    if h2ConfigOk then
      let c : GoClient := { HTTPClient := httpclient, options := options }
      let c :=
        if options.ImpersonateChrome then
          { c with HTTPClient := { Transport := .bypassJA3 httptransport } }
        else c
      .ok (setKillIdleConnections c)
    else .nilClient
  | _ => .panicked

/-- NewClient, unfolded on the chosen client's transport. -/
theorem NewClient_eq (opts : Options) (h2ok : Bool) :
    NewClient opts h2ok =
      match (clientChosen opts).Transport with
      | .transport t =>
        if h2ok then
          .ok (setKillIdleConnections
            (if opts.ImpersonateChrome then ⟨⟨.bypassJA3 t⟩, opts⟩
              else ⟨clientChosen opts, opts⟩))
        else .nilClient
      | _ => .panicked := rfl

/-- setKillIdleConnections never changes the executor itself. -/
theorem setKill_HTTPClient (c : GoClient) :
    (setKillIdleConnections c).HTTPClient = c.HTTPClient := by
  unfold setKillIdleConnections
  rcases c with ⟨⟨tr⟩, opts⟩
  cases tr <;> simp

/-- On a plain transport, setKillIdleConnections overwrites the flag with the
transport-derived value. -/
theorem setKill_options_plain (c : GoClient) (t : HTTPTransport)
    (h : c.HTTPClient.Transport = .transport t) :
    (setKillIdleConnections c).options =
      { c.options with
        KillIdleConn := t.DisableKeepAlives || decide (t.MaxConnsPerHost < 0) } := by
  unfold setKillIdleConnections
  rcases c with ⟨⟨tr⟩, opts⟩
  cases tr <;> simp_all

/-- On any other RoundTripper, setKillIdleConnections is the identity. -/
theorem setKill_options_other (c : GoClient)
    (h : c.HTTPClient.Transport.isPlainTransport = false) :
    setKillIdleConnections c = c := by
  unfold setKillIdleConnections
  rcases c with ⟨⟨tr⟩, opts⟩
  cases tr <;> simp_all [RoundTripper.isPlainTransport]

/-- setKillIdleConnections touches no options field other than KillIdleConn. -/
theorem setKill_other_fields (c : GoClient) :
    ((setKillIdleConnections c).options.RetryWaitMin = c.options.RetryWaitMin) ∧
    ((setKillIdleConnections c).options.RetryWaitMax = c.options.RetryWaitMax) ∧
    ((setKillIdleConnections c).options.RetryMax = c.options.RetryMax) ∧
    ((setKillIdleConnections c).options.RespReadLimit = c.options.RespReadLimit) := by
  unfold setKillIdleConnections
  rcases c with ⟨⟨tr⟩, opts⟩
  cases tr <;> simp

/-- Counterexample to C7 as stated: KillIdleConn explicitly configured true
together with a caller-supplied client whose plain transport keeps keep-alives
enabled (the pooled default) is turned off by the derivation step. -/
theorem setKillIdle_overrides_explicit_true :
    (({ KillIdleConn := true, HttpClient := some DefaultPooledClient } :
        Options).KillIdleConn = true) ∧
    ((NewClient
        { KillIdleConn := true, HttpClient := some DefaultPooledClient }
        true).resolvedOptions).map Options.KillIdleConn = some false := by
  constructor
  · rfl
  · rfl

/-- C7 (amended): after construction, whenever the client's transport is a
plain `*http.Transport` the effective kill-idle-connections flag equals the
transport-derived value `DisableKeepAlives || MaxConnsPerHost < 0` — an
explicitly configured true survives only through this derivation (as it does
when no custom client is supplied, since the defaults chosen for an explicit
true have keep-alives disabled); when the transport is not a plain
`*http.Transport` the configured value is kept. -/
theorem killIdleConn_derived_from_transport (opts : Options) (h2ok : Bool)
    (c : GoClient) (h : NewClient opts h2ok = .ok c) :
    (∀ t, c.HTTPClient.Transport = .transport t →
      c.options.KillIdleConn
        = (t.DisableKeepAlives || decide (t.MaxConnsPerHost < 0))) ∧
    (c.HTTPClient.Transport.isPlainTransport = false →
      c.options.KillIdleConn = opts.KillIdleConn) ∧
    (opts.HttpClient = none → opts.ImpersonateChrome = false →
      c.options.KillIdleConn = opts.KillIdleConn) := by
  rw [NewClient_eq] at h
  rcases hT : (clientChosen opts).Transport with t | t1 | i <;> rw [hT] at h
  case transport =>
    cases h2ok with
    | false => simp at h
    | true =>
      rcases hIC : opts.ImpersonateChrome with _ | _ <;>
        simp only [hIC, if_true] at h <;>
          simp only [Bool.false_eq_true, if_false, if_true,
            NewClientResult.ok.injEq] at h <;> subst h
      · -- no impersonation: the chosen client, with its plain transport
        have hH : (setKillIdleConnections ⟨clientChosen opts, opts⟩).HTTPClient
            = clientChosen opts := (setKill_HTTPClient _).trans rfl
        have hopts := setKill_options_plain ⟨clientChosen opts, opts⟩ t hT
        refine ⟨?_, ?_, ?_⟩
        · intro t2 ht2
          rw [hH, hT] at ht2
          cases ht2
          rw [hopts]
        · intro hfalse
          rw [hH, hT] at hfalse
          simp [RoundTripper.isPlainTransport] at hfalse
        · intro hHC hIC2
          rw [hopts]
          unfold clientChosen at hT
          rw [hHC] at hT
          rcases hKI : opts.KillIdleConn with _ | _ <;> rw [hKI] at hT <;>
            simp only [if_true, Bool.false_eq_true, if_false] at hT
          · have ht : t = DefaultReusePooledTransport := by
              have := hT.symm
              simp only [DefaultPooledClient, RoundTripper.transport.injEq] at this
              exact this
            subst ht
            simp [DefaultReusePooledTransport]
          · have ht : t = DefaultHostSprayingTransport := by
              have := hT.symm
              simp only [DefaultClient, RoundTripper.transport.injEq] at this
              exact this
            subst ht
            simp [DefaultHostSprayingTransport]
      · -- impersonation: the transport is the bypassJA3 wrapper, flag kept
        have hH : (setKillIdleConnections
              ⟨⟨.bypassJA3 t⟩, opts⟩).HTTPClient.Transport.isPlainTransport
            = false := by
          rw [setKill_HTTPClient]
          rfl
        have hid := setKill_options_other ⟨⟨.bypassJA3 t⟩, opts⟩ hH
        refine ⟨?_, ?_, ?_⟩
        · intro t2 ht2
          rw [setKill_HTTPClient] at ht2
          simp at ht2
        · intro _
          rw [hid]
        · intro _ hIC2
          simp at hIC2
  case bypassJA3 => simp at h
  case custom => simp at h

/-- Witness for C7 (amended) at the empty options (pooled default client). -/
theorem killIdleConn_derived_from_transport_witness :
    (∀ t, (GoClient.mk DefaultPooledClient {}).HTTPClient.Transport = .transport t →
      (GoClient.mk DefaultPooledClient {}).options.KillIdleConn
        = (t.DisableKeepAlives || decide (t.MaxConnsPerHost < 0))) ∧
    ((GoClient.mk DefaultPooledClient {}).HTTPClient.Transport.isPlainTransport = false →
      (GoClient.mk DefaultPooledClient {}).options.KillIdleConn
        = ({} : Options).KillIdleConn) ∧
    (({} : Options).HttpClient = none → ({} : Options).ImpersonateChrome = false →
      (GoClient.mk DefaultPooledClient {}).options.KillIdleConn
        = ({} : Options).KillIdleConn) :=
  killIdleConn_derived_from_transport {} true ⟨DefaultPooledClient, {}⟩ rfl

/-- Counterexample to C8 as stated: all-zero options are passed through
unchanged — the constructed client's snapshot keeps RetryMax 0, RetryWaitMin 0,
RetryWaitMax 0 and RespReadLimit 0 instead of the documented defaults 5, 1s,
30s and 4096. -/
theorem NewClient_zero_options_not_defaulted :
    ((NewClient {} true).resolvedOptions).map Options.RetryMax = some 0 ∧
    ((NewClient {} true).resolvedOptions).map Options.RetryWaitMin = some 0 ∧
    ((NewClient {} true).resolvedOptions).map Options.RetryWaitMax = some 0 ∧
    ((NewClient {} true).resolvedOptions).map Options.RespReadLimit = some 0 := by
  refine ⟨rfl, rfl, rfl, rfl⟩

/-- C8 (amended): NewClient applies no zero-value fallback — the constructed
client's numeric settings equal the given options verbatim; the documented
defaults (RetryWaitMin 1s, RetryWaitMax 30s, RetryMax 5, RespReadLimit 4096)
are supplied only by the preset DefaultOptionsSpraying / DefaultOptionsSingle
values. -/
theorem NewClient_keeps_numeric_options (opts : Options) (h2ok : Bool)
    (c : GoClient) (h : NewClient opts h2ok = .ok c) :
    (c.options.RetryWaitMin = opts.RetryWaitMin) ∧
    (c.options.RetryWaitMax = opts.RetryWaitMax) ∧
    (c.options.RetryMax = opts.RetryMax) ∧
    (c.options.RespReadLimit = opts.RespReadLimit) ∧
    (DefaultOptionsSpraying.RetryWaitMin = second ∧
      DefaultOptionsSpraying.RetryWaitMax = 30 * second ∧
      DefaultOptionsSpraying.RetryMax = 5 ∧
      DefaultOptionsSpraying.RespReadLimit = 4096) ∧
    (DefaultOptionsSingle.RetryWaitMin = second ∧
      DefaultOptionsSingle.RetryWaitMax = 30 * second ∧
      DefaultOptionsSingle.RetryMax = 5 ∧
      DefaultOptionsSingle.RespReadLimit = 4096) := by
  rw [NewClient_eq] at h
  rcases hT : (clientChosen opts).Transport with t | t1 | i <;> rw [hT] at h
  case transport =>
    cases h2ok with
    | false => simp at h
    | true =>
      rcases hIC : opts.ImpersonateChrome with _ | _ <;>
        simp only [hIC, if_true] at h <;>
          simp only [Bool.false_eq_true, if_false, if_true,
            NewClientResult.ok.injEq] at h <;> subst h <;>
            exact ⟨(setKill_other_fields _).1.trans rfl,
              (setKill_other_fields _).2.1.trans rfl,
              (setKill_other_fields _).2.2.1.trans rfl,
              (setKill_other_fields _).2.2.2.trans rfl,
              ⟨rfl, rfl, rfl, rfl⟩, ⟨rfl, rfl, rfl, rfl⟩⟩
  case bypassJA3 => simp at h
  case custom => simp at h

/-- Witness for C8 (amended) at the spraying preset options. -/
theorem NewClient_keeps_numeric_options_witness :
    ((GoClient.mk DefaultClient DefaultOptionsSpraying).options.RetryWaitMin
      = DefaultOptionsSpraying.RetryWaitMin) ∧
    ((GoClient.mk DefaultClient DefaultOptionsSpraying).options.RetryWaitMax
      = DefaultOptionsSpraying.RetryWaitMax) ∧
    ((GoClient.mk DefaultClient DefaultOptionsSpraying).options.RetryMax
      = DefaultOptionsSpraying.RetryMax) ∧
    ((GoClient.mk DefaultClient DefaultOptionsSpraying).options.RespReadLimit
      = DefaultOptionsSpraying.RespReadLimit) ∧
    (DefaultOptionsSpraying.RetryWaitMin = second ∧
      DefaultOptionsSpraying.RetryWaitMax = 30 * second ∧
      DefaultOptionsSpraying.RetryMax = 5 ∧
      DefaultOptionsSpraying.RespReadLimit = 4096) ∧
    (DefaultOptionsSingle.RetryWaitMin = second ∧
      DefaultOptionsSingle.RetryWaitMax = 30 * second ∧
      DefaultOptionsSingle.RetryMax = 5 ∧
      DefaultOptionsSingle.RespReadLimit = 4096) :=
  NewClient_keeps_numeric_options DefaultOptionsSpraying true
    ⟨DefaultClient, DefaultOptionsSpraying⟩ rfl

/-- C10: a supplied http.Client whose Transport is not a plain
`*http.Transport` makes NewClient panic through the unchecked type assertion
(no client and no error is returned); with a plain `*http.Transport` the
assertion — and hence construction — does not panic. -/
theorem NewClient_asserts_plain_transport (opts : Options) (h2ok : Bool)
    (hc : HttpClient) (h1 : opts.HttpClient = some hc) :
    (hc.Transport.isPlainTransport = false → NewClient opts h2ok = .panicked) ∧
    (hc.Transport.isPlainTransport = true → NewClient opts h2ok ≠ .panicked) := by
  have hchosen : clientChosen opts = hc := by
    unfold clientChosen
    rw [h1]
  rw [NewClient_eq, hchosen]
  constructor
  · intro hfalse
    rcases hT : hc.Transport with t | t1 | i
    · rw [hT] at hfalse
      simp [RoundTripper.isPlainTransport] at hfalse
    · rfl
    · rfl
  · intro htrue
    rcases hT : hc.Transport with t | t1 | i <;> rw [hT] at htrue <;>
      simp [RoundTripper.isPlainTransport] at htrue
    cases h2ok <;> simp

/-- Witness for C10 at a custom RoundTripper-backed client. -/
theorem NewClient_asserts_plain_transport_witness :
    ((HttpClient.mk (.custom 0)).Transport.isPlainTransport = false →
      NewClient { HttpClient := some (HttpClient.mk (.custom 0)) } true
        = .panicked) ∧
    ((HttpClient.mk (.custom 0)).Transport.isPlainTransport = true →
      NewClient { HttpClient := some (HttpClient.mk (.custom 0)) } true
        ≠ .panicked) :=
  NewClient_asserts_plain_transport
    { HttpClient := some (HttpClient.mk (.custom 0)) } true
    (HttpClient.mk (.custom 0)) rfl

/-! ## Impersonation transport (src/unnamed/part_008, `bypassJA3Transport`)

`RoundTrip` branches on the URL scheme; `httpsRoundTrip` dials with the
impersonated client hello and branches on the negotiated application protocol.
The external calls (the standard transport's RoundTrip, the impersonating dial,
the http2 connection setup, the raw http1 write/read) are inputs gathered in an
environment record; responses are abstract identifiers. -/

/-- Result of one round trip: a response or an error (with its message). -/
inductive RTOutcome where
  | resp (r : Nat)
  | fail (msg : Str)
deriving DecidableEq

/-- The TLS connection the impersonating dial returns: whether the type
assertion to `*utls.UConn` succeeds, and the negotiated application protocol. -/
structure UConnState where
  isUConn : Bool
  NegotiatedProtocol : Str
deriving DecidableEq

/-- Outcomes of the external calls an attempt through `bypassJA3Transport` can
make. -/
structure JA3Env where
  tr1Result : RTOutcome
  dialResult : Option UConnState
  h2NewConnOk : Bool
  h2Result : RTOutcome
  http1WriteOk : Bool
  http1ReadResult : RTOutcome
deriving DecidableEq

/-- Error message of a failed impersonating dial (and of the failed UConn
assertion, which reuses it). -/
def tcpDialFailMsg : Str := ("tcp net dial fail").toList

/-- Error message of a failed http2 connection setup. -/
def h2ConnFailMsg : Str := ("create http2 client with connection fail").toList

/-- Error message of a failed raw http1 write. -/
def http1WriteFailMsg : Str := ("write http1 tls connection fail").toList

/-- Error message head for an unsupported negotiated protocol. -/
def unsupportedVersionMsg : Str := ("unsuported http version: ").toList

/-- Error message for a scheme that is neither http nor https. -/
def unsupportedSchemeMsg : Str := ("unsupported scheme").toList

/-- httpsRoundTrip (src/unnamed/part_008): dial with the Chrome client hello,
assert the UConn type, then branch on the negotiated protocol — h2 upgrades to
an http2 session, http/1.1 or an unspecified protocol writes the request on the
raw connection, anything else is a hard error. -/
def httpsRoundTrip (b : JA3Env) : RTOutcome :=
  match b.dialResult with
  | none => .fail tcpDialFailMsg
  | some conn =>
    if conn.isUConn = false then .fail tcpDialFailMsg
    else
      let httpVersion := conn.NegotiatedProtocol
      if httpVersion == ("h2").toList then
        if b.h2NewConnOk then b.h2Result else .fail h2ConnFailMsg
      else if httpVersion == ("http/1.1").toList || httpVersion == [] then
        if b.http1WriteOk then b.http1ReadResult else .fail http1WriteFailMsg
      else .fail (unsupportedVersionMsg ++ httpVersion)

/-- bypassJA3Transport.RoundTrip (src/unnamed/part_008): https goes through the
impersonating path, http is delegated to the standard transport, anything else
errors. -/
def RoundTrip (b : JA3Env) (scheme : Str) : RTOutcome :=
  if scheme == ("https").toList then httpsRoundTrip b
  else if scheme == ("http").toList then b.tr1Result
  else .fail unsupportedSchemeMsg

/-- C9: a plain-http request is always delegated to the standard tier's
executor, and an https request whose TLS negotiation yields an application
protocol other than h2, http/1.1 or the empty string returns a non-nil error
(no response) for that attempt. -/
theorem bypassJA3_routes_http_and_rejects_unknown_protocol (b : JA3Env)
    (p : Str) (hdial : b.dialResult = some ⟨true, p⟩)
    (hp2 : p ≠ ("h2").toList) (hp11 : p ≠ ("http/1.1").toList) (hpe : p ≠ []) :
    (RoundTrip b (("http").toList) = b.tr1Result) ∧
    (RoundTrip b (("https").toList) = .fail (unsupportedVersionMsg ++ p)) := by
  constructor
  · rfl
  · show httpsRoundTrip b = _
    unfold httpsRoundTrip
    rw [hdial]
    have hp2x : p ≠ (['h', '2'] : Str) := hp2
    have hp11x : p ≠ (['h', 't', 't', 'p', '/', '1', '.', '1'] : Str) := hp11
    simp [hp2x, hp11x, hpe]

/-- Witness for C9 at negotiated protocol h3. -/
theorem bypassJA3_routes_http_witness :
    (RoundTrip
        ⟨.resp 0, some ⟨true, ("h3").toList⟩, true, .resp 1, true, .resp 2⟩
        (("http").toList)
      = (JA3Env.mk (.resp 0) (some ⟨true, ("h3").toList⟩) true (.resp 1) true
          (.resp 2)).tr1Result) ∧
    (RoundTrip
        ⟨.resp 0, some ⟨true, ("h3").toList⟩, true, .resp 1, true, .resp 2⟩
        (("https").toList)
      = .fail (unsupportedVersionMsg ++ ("h3").toList)) :=
  bypassJA3_routes_http_and_rejects_unknown_protocol
    ⟨.resp 0, some ⟨true, ("h3").toList⟩, true, .resp 1, true, .resp 2⟩
    (("h3").toList) rfl (by decide) (by decide) (by decide)

end Retryablehttp
